import Mathlib

/-!
Verification of the Fisher-Leetcode cog (src/Fisher_Leetcode): a shallow
embedding of the data model (models.py), the query helpers (crud.py) and the
command/job handlers of cogs/LeetcodeCog.py, together with theorems settling
the specification claims about them.

Conventions of the embedding:
* SQL rows become Lean structures; a table becomes a `List` of rows; SQL
  `SELECT ... WHERE` becomes `List.filter`, joins become `List.bind`/`filter`
  combinations, and `scalar_one_or_none` becomes `List.find?`.
* Numeric ids (guild/user/channel/role/question/submission ids) are `Nat`.
* A calendar day is a `Date` record of year/month/day; `datetime` values are
  represented by the calendar day they fall on whenever the source only ever
  inspects the day (via `extract("year"|"month"|"day", ...)` or
  `.replace(hour=0, minute=0, second=0, microsecond=0)`).
* External collaborators (chat platform, LeetCode HTTP API) are environment
  records supplying the answers the code observes: whether a guild / role /
  channel resolves, whether the bot may send, and what each GraphQL request
  returns.  An HTTP response is `FetchResult`: `httpError` for `not
  response.ok`, `ok v` for a 2xx response whose payload parsed to `v`.
* A raised `CommandArgumentError(status_code, detail)` becomes a constructor
  of an error type carrying the data interpolated into the detail string.
-/

/-- A UTC calendar day (the year/month/day triple the source compares). -/
structure Date where
  year : Nat
  month : Nat
  day : Nat
deriving DecidableEq, Repr

/-- `leetcode_members` row in the schema crud.py and LeetcodeCog.py address:
a surrogate primary key `id` plus the guild/user pair
(crud.py uses `Member.id` in joins and lookups). -/
structure MemberRow where
  id : Nat
  guild_id : Nat
  user_id : Nat
deriving DecidableEq, Repr

/-- `leetcode_submissions` row in the schema crud.py and LeetcodeCog.py
address: external submission id, `member_id` foreign key to `Member.id`,
question id, and the `created_at` timestamp (represented by its UTC day,
the only part crud.py ever extracts). -/
structure SubmissionRow where
  submission_id : Nat
  member_id : Nat
  question_id : Nat
  created_at : Date
deriving DecidableEq, Repr

/-- `leetcode_questions` row (models.py `Question`). -/
structure QuestionRow where
  id : Nat
  title : String
  title_slug : String
  difficulty : Nat
  paid_only : Bool
deriving DecidableEq, Repr

/-- crud.get_guild_members: `select(Member).where(Member.guild_id == guild_id)`. -/
def get_guild_members (members : List MemberRow) (guild_id : Nat) : List MemberRow :=
  members.filter (fun m => m.guild_id == guild_id)

/-- crud.get_member: `select(Member).where(Member.id == member_id)` with
`scalar_one_or_none`. -/
def get_member (members : List MemberRow) (member_id : Nat) : Option MemberRow :=
  members.find? (fun m => m.id == member_id)

/-- crud.get_member_by_guild_user: `select(Member).where(Member.guild_id ==
guild_id, Member.user_id == user_id)` with `scalar_one_or_none`. -/
def get_member_by_guild_user (members : List MemberRow) (guild_id user_id : Nat) :
    Option MemberRow :=
  members.find? (fun m => m.guild_id == guild_id && m.user_id == user_id)

/-- crud.get_submission: `select(Submission).where(Submission.member_id ==
member_id, Submission.submission_id == submission_id)` with
`scalar_one_or_none`.  Note the lookup is scoped to one member. -/
def get_submission (submissions : List SubmissionRow) (member_id submission_id : Nat) :
    Option SubmissionRow :=
  submissions.find? (fun s => s.member_id == member_id && s.submission_id == submission_id)

/-- crud.get_question_by_id: `select(Question).where(Question.id == question_id)`. -/
def get_question_by_id (questions : List QuestionRow) (question_id : Nat) :
    Option QuestionRow :=
  questions.find? (fun q => q.id == question_id)

/-- The `extract year/month/day equals today's` predicate both completion
queries apply to `Submission.created_at`. -/
def createdOn (s : SubmissionRow) (today : Date) : Bool :=
  s.created_at.year == today.year && s.created_at.month == today.month
    && s.created_at.day == today.day

/-- crud.get_completed_user_ids: `today = today or datetime.now(utc)`, then
`select(Member.user_id).select_from(Submission).join(Member,
Submission.member_id == Member.id).where(Member.guild_id == guild_id,
extract(year|month|day, Submission.created_at) == today.year|month|day)`.
The join is a list of (submission, member) pairs with matching
`member_id`/`id`; the WHERE filters, the projection keeps `user_id`. -/
def get_completed_user_ids (members : List MemberRow) (submissions : List SubmissionRow)
    (guild_id : Nat) (today? : Option Date) (now : Date) : List Nat :=
  let today := today?.getD now
  ((submissions.flatMap fun s =>
      (members.filter (fun m => s.member_id == m.id)).map (fun m => (s, m))).filter
    (fun p => p.2.guild_id == guild_id && createdOn p.1 today)).map
    (fun p => p.2.user_id)

/-- crud.get_uncompleted_user_ids: a subquery of the submissions created on
`today`, left-outer-joined to `Member` on `Member.id == subquery.member_id`,
keeping the rows where `subquery.submission_id == None` (i.e. the members no
today-submission matched) within the guild. -/
def get_uncompleted_user_ids (members : List MemberRow) (submissions : List SubmissionRow)
    (guild_id : Nat) (today? : Option Date) (now : Date) : List Nat :=
  let today := today?.getD now
  let subquery := submissions.filter (fun s => createdOn s today)
  (members.filter (fun m =>
      m.guild_id == guild_id && (subquery.filter (fun s => s.member_id == m.id)).isEmpty)).map
    (fun m => m.user_id)

/-- LeetcodeCog._get_status_display: maps a LeetCode status code to its
display name (10 is the accepted code). -/
def get_status_display (status_code : Int) : String :=
  if status_code = 10 then "Accepted"
  else if status_code = 11 then "Wrong Answer"
  else if status_code = 12 then "Memory Limit Exceeded"
  else if status_code = 13 then "Output Limit Exceeded"
  else if status_code = 14 then "Time Limit Exceeded"
  else if status_code = 15 then "Runtime Error"
  else if status_code = 16 then "Internal Error"
  else if status_code = 17 then "Compile Error"
  else if status_code = 18 then "Timeout"
  else "Unknown Status"

/-- LeetcodeCog._difficulty_display_to_int; the source raises `ValueError`
on any label other than Easy/Medium/Hard, embedded as `none`. -/
def difficulty_display_to_int (difficulty_display : String) : Option Nat :=
  if difficulty_display = "Easy" then some 1
  else if difficulty_display = "Medium" then some 2
  else if difficulty_display = "Hard" then some 3
  else none

/-- LeetcodeCog._generate_embed_text_value over the characters of the input
(Python strings index by characters).  `text[:k]` is `List.take k`. -/
def generate_embed_text_value (text : List Char) (render_type : List Char) : List Char :=
  let length := text.length
  if render_type = "markdown".data then
    if length + 6 > 1024 then
      "```".data ++ text.take (1024 - 9) ++ "...".data ++ "```".data
    else "```".data ++ text ++ "```".data
  else if length > 1024 then text.take (1024 - 3) ++ "...".data
  else text

/-- Python str.isdigit for the ASCII-digit strings the command deals in:
nonempty and all characters digits. -/
def pyIsDigit (s : String) : Bool :=
  !s.data.isEmpty && s.data.all Char.isDigit

/-- Numeric value of a digit run (the `int(...)` conversion). -/
def digitsToNat (cs : List Char) : Nat :=
  cs.foldl (fun acc c => acc * 10 + (c.toNat - 48)) 0

/-- The first maximal run of digits in a character list, if any: the match of
`re.search(r"(\d+)", ...)`. -/
def firstDigitRun : List Char → Option (List Char)
  | [] => none
  | c :: cs => if c.isDigit then some (c :: cs.takeWhile Char.isDigit) else firstDigitRun cs

/-- The submission-id extraction at the top of leetcode_submit:
`re_search(r"(\d+)", link_or_id)` then `int(match.group())`. -/
def extractSubmissionId (link_or_id : String) : Option Nat :=
  (firstDigitRun link_or_id.data).map digitsToNat

/-- Outcome of one GraphQL POST as the handler observes it: `httpError` for
`not response.ok`, `ok v` for a 2xx response whose relevant payload field
parsed to `v` (`ok none` = the field was null). -/
inductive FetchResult (α : Type) where
  | httpError
  | ok (val : Option α)
deriving DecidableEq, Repr

/-- The fields of `activeDailyCodingChallengeQuestion` leetcode_submit reads:
the challenge date and the question frontend id. -/
structure DailyQ where
  date : Date
  questionFrontendId : Nat
deriving DecidableEq, Repr

/-- The fields of `submissionDetails` leetcode_submit reads before persisting:
question frontend id / title / slug / difficulty label / paid flag, the UTC
day of the submission timestamp (the code only compares the timestamp
truncated with `.replace(hour=0, minute=0, second=0, microsecond=0)`),
and the status code. -/
structure SubDetail where
  questionFrontendId : Nat
  title : String
  titleSlug : String
  difficultyDisplay : String
  isPaidOnly : Bool
  timestampDate : Date
  statusCode : Int
deriving DecidableEq, Repr

/-- The GuildConfig fields leetcode_submit reads. -/
structure SubmitConfig where
  daily_challenge_on : Bool
  notification_channel_id : Nat
  guild_timezone : String
deriving DecidableEq, Repr

/-- Everything outside the routine that leetcode_submit consults, fixed for
one invocation: the caller's interaction, the database tables, the chat
platform lookups and the two GraphQL responses. -/
structure SubmitEnv where
  guild_id : Nat
  user_id : Nat
  config : Option SubmitConfig
  members : List MemberRow
  submissions : List SubmissionRow
  questions : List QuestionRow
  channelExists : Bool
  canSend : Bool
  daily : FetchResult DailyQ
  detail : FetchResult SubDetail
  now : Date
deriving Repr

/-- The external API requests leetcode_submit can issue, in order. -/
inductive ApiCall where
  | questionOfToday
  | submissionDetails (submission_id : Nat)
deriving DecidableEq, Repr

/-- The `CommandArgumentError`s leetcode_submit raises, carrying the data the
source interpolates into each detail string. -/
inductive SubmitError where
  | noSubmissionId
  | notInitialized
  | challengeNotEnabled
  | notJoined
  | channelNotFound (channel_id : Nat)
  | noSendPermission
  | dailyFetchFailed
  | dailyNotFound
  | detailFetchFailed
  | submissionNotFound (submission_id : Nat)
  | questionMismatch (submission_id sub_qid today_qid : Nat)
  | notSubmittedToday (submission_id sub_qid : Nat)
  | badStatus (submission_id : Nat) (status_display : String)
  | alreadySubmittedUnknown (submission_id member_id : Nat)
  | alreadySubmitted (submission_id claimant_member_id : Nat)
  | invalidDifficulty (label : String)
deriving DecidableEq, Repr

/-- HTTP-like status code of each error, as in the raised
`CommandArgumentError(status_code=...)`. -/
def SubmitError.statusCode : SubmitError → Nat
  | .noSubmissionId => 400
  | .notInitialized => 404
  | .challengeNotEnabled => 400
  | .notJoined => 400
  | .channelNotFound _ => 404
  | .noSendPermission => 403
  | .dailyFetchFailed => 400
  | .dailyNotFound => 404
  | .detailFetchFailed => 400
  | .submissionNotFound _ => 404
  | .questionMismatch _ _ _ => 400
  | .notSubmittedToday _ _ => 400
  | .badStatus _ _ => 400
  | .alreadySubmittedUnknown _ _ => 404
  | .alreadySubmitted _ _ => 400
  | .invalidDifficulty _ => 500

/-- The observable result of one leetcode_submit invocation: the reply (the
accepted submission id, or the raised error), the external API requests that
were issued, and the database tables after the session closed. -/
structure SubmitResult where
  outcome : Except SubmitError Nat
  apiCalls : List ApiCall
  submissions : List SubmissionRow
  questions : List QuestionRow
deriving Repr

/-- LeetcodeCog.leetcode_submit, check for check in source order:
digit extraction; config present; `daily_challenge_on`; member joined;
notification channel resolves; bot may send; fetch `questionOfToday`
(HTTP error, then null payload); fetch `submissionDetails` (HTTP error,
then null payload); question id equals today's; submission day equals the
challenge date; status code is exactly 10; duplicate lookup via
`crud.get_submission(member_id=db_member.id, submission_id=submission_id)`
(attributing an existing row via `crud.get_member(db_submission.member_id)`);
question-cache upsert (difficulty label mapped, unknown label = ValueError);
finally insert of `Submission(submission_id, member_id=db_member.id,
question_id=db_question.id)` (created_at defaulting to the current day)
and commit. -/
def leetcode_submit (env : SubmitEnv) (link_or_id : String) : SubmitResult :=
  match extractSubmissionId link_or_id with
  | none => ⟨.error .noSubmissionId, [], env.submissions, env.questions⟩
  | some submission_id =>
    match env.config with
    | none => ⟨.error .notInitialized, [], env.submissions, env.questions⟩
    | some cfg =>
      if !cfg.daily_challenge_on then
        ⟨.error .challengeNotEnabled, [], env.submissions, env.questions⟩
      else
        match get_member_by_guild_user env.members env.guild_id env.user_id with
        | none => ⟨.error .notJoined, [], env.submissions, env.questions⟩
        | some db_member =>
          if !env.channelExists then
            ⟨.error (.channelNotFound cfg.notification_channel_id), [],
              env.submissions, env.questions⟩
          else if !env.canSend then
            ⟨.error .noSendPermission, [], env.submissions, env.questions⟩
          else
            match env.daily with
            | .httpError =>
              ⟨.error .dailyFetchFailed, [.questionOfToday], env.submissions, env.questions⟩
            | .ok none =>
              ⟨.error .dailyNotFound, [.questionOfToday], env.submissions, env.questions⟩
            | .ok (some question_of_today) =>
              let calls := [ApiCall.questionOfToday, ApiCall.submissionDetails submission_id]
              match env.detail with
              | .httpError =>
                ⟨.error .detailFetchFailed, calls, env.submissions, env.questions⟩
              | .ok none =>
                ⟨.error (.submissionNotFound submission_id), calls,
                  env.submissions, env.questions⟩
              | .ok (some d) =>
                if d.questionFrontendId != question_of_today.questionFrontendId then
                  ⟨.error (.questionMismatch submission_id d.questionFrontendId
                      question_of_today.questionFrontendId), calls,
                    env.submissions, env.questions⟩
                else if d.timestampDate != question_of_today.date then
                  ⟨.error (.notSubmittedToday submission_id d.questionFrontendId), calls,
                    env.submissions, env.questions⟩
                else if d.statusCode != 10 then
                  ⟨.error (.badStatus submission_id (get_status_display d.statusCode)), calls,
                    env.submissions, env.questions⟩
                else
                  match get_submission env.submissions db_member.id submission_id with
                  | some db_submission =>
                    match get_member env.members db_submission.member_id with
                    | none =>
                      ⟨.error (.alreadySubmittedUnknown submission_id
                          db_submission.member_id), calls,
                        env.submissions, env.questions⟩
                    | some submission_member =>
                      ⟨.error (.alreadySubmitted submission_id submission_member.id), calls,
                        env.submissions, env.questions⟩
                  | none =>
                    let existing := get_question_by_id env.questions d.questionFrontendId
                    match existing with
                    | some db_question =>
                      ⟨.ok submission_id, calls,
                        env.submissions
                          ++ [⟨submission_id, db_member.id, db_question.id, env.now⟩],
                        env.questions⟩
                    | none =>
                      match difficulty_display_to_int d.difficultyDisplay with
                      | none =>
                        ⟨.error (.invalidDifficulty d.difficultyDisplay), calls,
                          env.submissions, env.questions⟩
                      | some difficulty =>
                        let db_question : QuestionRow :=
                          ⟨d.questionFrontendId, d.title, d.titleSlug, difficulty,
                            d.isPaidOnly⟩
                        ⟨.ok submission_id, calls,
                          env.submissions
                            ++ [⟨submission_id, db_member.id, db_question.id, env.now⟩],
                          env.questions ++ [db_question]⟩

/-- The GuildConfig fields _daily_challenge_remind reads, in the schema the
cog addresses (it reads `daily_challenge_date` off the loaded config). -/
structure RemindConfig where
  role_id : Nat
  notification_channel_id : Nat
  daily_challenge_on : Bool
  daily_challenge_date : Date
deriving DecidableEq, Repr

/-- Everything _daily_challenge_remind(guild_id) consults: the config row,
whether `bot.get_guild`, `guild.get_role` and `bot.get_channel` resolve,
the `permissions_for(...).send_messages` answer, and the tables behind
`crud.get_uncompleted_user_ids`. -/
structure RemindEnv where
  guild_id : Nat
  config : Option RemindConfig
  guildExists : Bool
  roleExists : Bool
  channelExists : Bool
  canSend : Bool
  members : List MemberRow
  submissions : List SubmissionRow
  now : Date
deriving DecidableEq, Repr

/-- The `CommandArgumentError`s _daily_challenge_remind raises. -/
inductive RemindError where
  | notInitialized (guild_id : Nat)
  | guildGone (guild_id : Nat)
  | roleMissing (role_id guild_id : Nat)
  | channelOrPermission (channel_id guild_id : Nat)
deriving DecidableEq, Repr

/-- Status code of the raised `CommandArgumentError`. -/
def RemindError.statusCode : RemindError → Nat
  | .notInitialized _ => 404
  | .guildGone _ => 404
  | .roleMissing _ _ => 404
  | .channelOrPermission _ _ => 400

/-- Observable result of one _daily_challenge_remind firing: whether
`_remove_remind_job` ran, the persisted config after the session (the
commits in the handler make `configAfter` the stored row; `none` means the
row was deleted or never existed), the reminder that was sent to the
notification channel (`some uncompleted` lists the user ids mentioned in the
message), and the raised error. -/
structure RemindResult where
  jobRemoved : Bool
  configAfter : Option RemindConfig
  sent : Option (List Nat)
  error : Option RemindError
deriving DecidableEq, Repr

/-- LeetcodeCog._daily_challenge_remind, branch for branch in source order:
missing config; missing guild (config deleted); missing role (job removed,
`daily_challenge_on` flipped off, committed); then the channel check exactly
as written in the source —
`if not notification_channel or notification_channel.permissions_for(
notification_channel.guild.me).send_messages:` — whose condition is
`!channelExists || canSend`; otherwise the uncompleted set for
`leetcode_config.daily_challenge_date` is computed and the reminder is
sent. -/
def daily_challenge_remind (env : RemindEnv) : RemindResult :=
  match env.config with
  | none => ⟨true, none, none, some (.notInitialized env.guild_id)⟩
  | some cfg =>
    if !env.guildExists then
      ⟨true, none, none, some (.guildGone env.guild_id)⟩
    else if !env.roleExists then
      ⟨true, some { cfg with daily_challenge_on := false }, none,
        some (.roleMissing cfg.role_id env.guild_id)⟩
    else if !env.channelExists || env.canSend then
      ⟨true, some { cfg with daily_challenge_on := false }, none,
        some (.channelOrPermission cfg.notification_channel_id env.guild_id)⟩
    else
      let uncompleted := get_uncompleted_user_ids env.members env.submissions
        env.guild_id (some cfg.daily_challenge_date) env.now
      ⟨false, some cfg, some uncompleted, none⟩

/-- The mapped columns of models.GuildConfig (models.py lines 18-31):
guild_id, role_id, cookie, notification_channel_id, daily_challenge_on,
remind_time, guild_timezone.  There is no `daily_challenge_date` column. -/
structure GuildConfigColumns where
  guild_id : Nat
  role_id : Nat
  cookie : String
  notification_channel_id : Nat
  daily_challenge_on : Bool
  remind_time : String
  guild_timezone : String
deriving DecidableEq, Repr

/-- A GuildConfig ORM instance inside a session: its mapped columns plus the
`daily_challenge_date` attribute, which _daily_challenge_start assigns even
though models.GuildConfig maps no such column, so it lives only on the
Python object. -/
structure GuildConfigInstance where
  columns : GuildConfigColumns
  daily_challenge_date : Option Date
deriving DecidableEq, Repr

/-- Loading a row in a fresh session yields an instance whose attributes are
exactly its mapped columns; the unmapped `daily_challenge_date` attribute is
absent. -/
def loadInstance (c : GuildConfigColumns) : GuildConfigInstance :=
  ⟨c, none⟩

/-- Committing a session persists the mapped columns of each instance;
attributes that are not mapped columns of models.GuildConfig are not
written to the database. -/
def commitInstance (i : GuildConfigInstance) : GuildConfigColumns :=
  i.columns

/-- Environment of one _daily_challenge_start firing: whether the
`questionOfToday` POST succeeded (`response.ok`), the stored GuildConfig
rows, the current UTC day, and which notification channels
`bot.get_channel` resolves. -/
structure StartEnv where
  fetchOk : Bool
  db : List GuildConfigColumns
  today : Date
  channels : List Nat
deriving DecidableEq, Repr

/-- Observable result of one _daily_challenge_start firing: whether the
handler raised at the fetch (before opening a database session), the stored
rows after the session closed, the session instances of the enabled configs
as the loop left them, and the channels the announcement was sent to. -/
structure StartResult where
  raised : Bool
  persisted : List GuildConfigColumns
  sessionInstances : List GuildConfigInstance
  announcedChannels : List Nat
deriving DecidableEq, Repr

/-- LeetcodeCog._daily_challenge_start: a failed `questionOfToday` POST
raises before any database access; otherwise, for every config with
`daily_challenge_on`, the handler assigns
`config.daily_challenge_date = today.replace(hour=0, minute=0, second=0,
microsecond=0)` (an attribute models.GuildConfig does not map, hence
dropped by `commitInstance`), skips the guild if its notification channel
does not resolve, and otherwise sends the announcement there. -/
def daily_challenge_start (env : StartEnv) : StartResult :=
  if !env.fetchOk then ⟨true, env.db, [], []⟩
  else
    let enabled := env.db.filter (fun c => c.daily_challenge_on)
    let instances := enabled.map (fun c =>
      { loadInstance c with daily_challenge_date := some env.today })
    let announced := (instances.filter (fun i =>
      env.channels.contains i.columns.notification_channel_id)).map
      (fun i => i.columns.notification_channel_id)
    let persisted := env.db.map (fun c =>
      if c.daily_challenge_on then
        commitInstance { loadInstance c with daily_challenge_date := some env.today }
      else c)
    ⟨false, persisted, instances, announced⟩

/-- The GuildConfig field leetcode_remind_time mutates. -/
structure RtConfig where
  remind_time : String
deriving DecidableEq, Repr

/-- Observable result of one leetcode_remind_time invocation: the reply
(`ok` carries the formatted time echoed in the follow-up message, `error`
the raised `CommandArgumentError` as status code and detail), the persisted
config after the call, and the registered remind job trigger after the
remove-then-add. -/
structure RemindTimeOutcome where
  response : Except (Nat × String) String
  configAfter : Option RtConfig
  job : Option (Int × Int × Int)
deriving Repr

/-- `%02d` formatting for the validated 0..59 range. -/
def pad2 (n : Int) : String :=
  if 0 ≤ n ∧ n < 10 then "0" ++ toString n else toString n

/-- The `f"{hour:02d}:{minute:02d}:{second:02d}"` remind-time string. -/
def formatRemindTime (hour minute second : Int) : String :=
  pad2 hour ++ ":" ++ pad2 minute ++ ":" ++ pad2 second

/-- LeetcodeCog.leetcode_remind_time: the range checks run first (hour, then
minute/second, each raising a 400 before any database access), then the
config is loaded (404 when absent), `remind_time` is set and committed, and
the remind job is removed and re-added with the new trigger. -/
def leetcode_remind_time (hour minute second : Int) (config : Option RtConfig)
    (job : Option (Int × Int × Int)) : RemindTimeOutcome :=
  if !(0 ≤ hour ∧ hour ≤ 23 : Bool) then
    ⟨.error (400, "The hour must be between 0 and 23."), config, job⟩
  else if !((0 ≤ minute ∧ minute ≤ 59 : Bool) && (0 ≤ second ∧ second ≤ 59 : Bool)) then
    ⟨.error (400, "The minute and second must be between 0 and 59."), config, job⟩
  else
    match config with
    | none =>
      ⟨.error (404, "Leetcode plugin is not initialized in this guild."), config, job⟩
    | some cfg =>
      ⟨.ok (formatRemindTime hour minute second),
        some { cfg with remind_time := formatRemindTime hour minute second },
        some (hour, minute, second)⟩

/-- A chat-platform channel as leetcode_channel inspects it. -/
structure ChannelInfo where
  isTextChannel : Bool
  canSend : Bool
deriving DecidableEq, Repr

/-- The GuildConfig field leetcode_channel mutates. -/
structure ChanConfig where
  notification_channel_id : Nat
deriving DecidableEq, Repr

/-- Environment of one leetcode_channel invocation: the channels
`interaction.guild.get_channel` resolves, the invoking channel id, and the
stored config. -/
structure ChannelCmdEnv where
  channels : List (Nat × ChannelInfo)
  current_channel_id : Nat
  config : Option ChanConfig
deriving DecidableEq, Repr

/-- Result of one leetcode_channel invocation.  `attributeError` is the
unhandled Python `AttributeError` from calling `.isdigit()` on `None`. -/
inductive ChannelCmdResult where
  | attributeError
  | commandError (status : Nat) (detail : String)
  | ok (new_channel_id : Nat)
deriving DecidableEq, Repr

/-- Observable outcome of leetcode_channel: the result, the persisted config
after the call, and whether the database session was ever opened. -/
structure ChannelCmdOutcome where
  result : ChannelCmdResult
  configAfter : Option ChanConfig
  dbAccessed : Bool
deriving DecidableEq, Repr

/-- LeetcodeCog.leetcode_channel with its declared default
`channel_id: str = None`: the body immediately evaluates
`channel_id.isdigit()`, which on `None` raises AttributeError before
anything else runs.  On a string it validates the digits, resolves
`int(channel_id) or interaction.channel_id` (the fallback fires only when
the digits parse to 0), requires a text channel with send permission, and
only then opens the session, loads the config (404 when absent), stores the
channel id and commits. -/
def leetcode_channel (channel_id : Option String) (env : ChannelCmdEnv) :
    ChannelCmdOutcome :=
  match channel_id with
  | none => ⟨.attributeError, env.config, false⟩
  | some s =>
    if !pyIsDigit s then
      ⟨.commandError 400 "The channel id must be an integer.", env.config, false⟩
    else
      let target := if digitsToNat s.data != 0 then digitsToNat s.data
        else env.current_channel_id
      match (env.channels.find? (fun p => p.1 == target)).map Prod.snd with
      | none =>
        ⟨.commandError 400 "The channel must be a text channel.", env.config, false⟩
      | some info =>
        if !info.isTextChannel then
          ⟨.commandError 400 "The channel must be a text channel.", env.config, false⟩
        else if !info.canSend then
          ⟨.commandError 403
            "The bot does not have permission to send messages in the channel.",
            env.config, false⟩
        else
          match env.config with
          | none =>
            ⟨.commandError 404 "Leetcode plugin is not initialized in this guild.",
              none, true⟩
          | some _ =>
            ⟨.ok target, some ⟨target⟩, true⟩

/-- Remind firing for guild 1 where everything is healthy: config present and
enabled, guild, role and channel all resolve, and the bot HAS permission to
send in the notification channel.  One joined member, no submissions. -/
def remindEnvPermissionPresent : RemindEnv :=
  ⟨1, some ⟨10, 77, true, ⟨2024, 5, 1⟩⟩, true, true, true, true,
    [⟨1, 1, 100⟩], [], ⟨2024, 5, 1⟩⟩

/-- Same firing but the bot LACKS send permission in the channel. -/
def remindEnvPermissionAbsent : RemindEnv :=
  ⟨1, some ⟨10, 77, true, ⟨2024, 5, 1⟩⟩, true, true, true, false,
    [⟨1, 1, 100⟩], [], ⟨2024, 5, 1⟩⟩

/-- Remind firing for guild 1 whose configured role was deleted externally. -/
def remindEnvRoleGone : RemindEnv :=
  ⟨1, some ⟨10, 77, true, ⟨2024, 5, 1⟩⟩, true, false, true, false,
    [⟨1, 1, 100⟩], [], ⟨2024, 5, 1⟩⟩

/-- A stored GuildConfig row with the daily challenge enabled. -/
def cfgRowEnabled : GuildConfigColumns :=
  ⟨1, 10, "c", 77, true, "23:00:00", "UTC"⟩

/-- Day-start firing on 2024-05-01 whose challenge fetch fails. -/
def startEnvFetchFail : StartEnv :=
  ⟨false, [cfgRowEnabled], ⟨2024, 5, 1⟩, [77]⟩

/-- Day-start firing on 2024-05-01 whose challenge fetch succeeds. -/
def startEnvOk : StartEnv :=
  ⟨true, [cfgRowEnabled], ⟨2024, 5, 1⟩, [77]⟩

/-- The challenge day used by the concrete submit scenarios. -/
def d0 : Date := ⟨2024, 5, 1⟩

/-- Member A (surrogate id 1) of guild 1, the first claimant. -/
def memberA : MemberRow := ⟨1, 1, 100⟩

/-- Member B (surrogate id 2) of the same guild 1. -/
def memberB : MemberRow := ⟨2, 1, 200⟩

/-- The Submission row stored by member A's earlier successful claim of
external submission id 5 (question 7, created on the challenge day). -/
def subRowA : SubmissionRow := ⟨5, 1, 7, d0⟩

/-- The submission detail the API returns for submission id 5: today's
question 7, submitted today, status 10 (accepted). -/
def detail5 : SubDetail := ⟨7, "Two Sum", "two-sum", "Easy", false, d0, 10⟩

/-- Member B calling submit with the already-claimed submission id 5: the
guild is configured and enabled, both members joined, A's row is stored,
question 7 is cached, channel and permission are fine, and both API calls
succeed with valid, accepted data. -/
def submitEnvB : SubmitEnv :=
  ⟨1, 200, some ⟨true, 77, "UTC"⟩, [memberA, memberB], [subRowA],
    [⟨7, "Two Sum", "two-sum", 1, false⟩], true, true,
    .ok (some ⟨d0, 7⟩), .ok (some detail5), d0⟩

/-- The same call issued by member A, the original claimant. -/
def submitEnvA : SubmitEnv :=
  ⟨1, 100, some ⟨true, 77, "UTC"⟩, [memberA, memberB], [subRowA],
    [⟨7, "Two Sum", "two-sum", 1, false⟩], true, true,
    .ok (some ⟨d0, 7⟩), .ok (some detail5), d0⟩

/-- A submit invocation whose notification channel does not resolve
(everything else healthy). -/
def submitEnvNoChannel : SubmitEnv :=
  ⟨1, 100, some ⟨true, 77, "UTC"⟩, [memberA], [],
    [⟨7, "Two Sum", "two-sum", 1, false⟩], false, true,
    .ok (some ⟨d0, 7⟩), .ok (some detail5), d0⟩

/-- The submission detail for a Wrong Answer attempt (status code 11) on
today's question. -/
def detailWrongAnswer : SubDetail := ⟨7, "Two Sum", "two-sum", "Easy", false, d0, 11⟩

/-- A submit invocation whose claimed submission has status Wrong Answer;
every other check would pass. -/
def submitEnvWrongStatus : SubmitEnv :=
  ⟨1, 100, some ⟨true, 77, "UTC"⟩, [memberA], [],
    [⟨7, "Two Sum", "two-sum", 1, false⟩], true, true,
    .ok (some ⟨d0, 7⟩), .ok (some detailWrongAnswer), d0⟩

/-- Members of guild 1 used by the completion-partition witness. -/
def partitionMembers : List MemberRow := [⟨1, 1, 100⟩, ⟨2, 1, 200⟩]

/-- Submissions used by the completion-partition witness: member id 1
completed question 7 on the day. -/
def partitionSubs : List SubmissionRow := [⟨5, 1, 7, ⟨2024, 5, 1⟩⟩]

/-- An overlong input for the embed-truncation witness. -/
def longText : List Char := List.replicate 1030 'a'

/-- Claim C1: during remind(guild_id), when the notification channel resolves
and the bot has permission to send messages in it, the handler was claimed to
proceed to send the reminder, deregistering and disabling exactly when the
channel is missing or permission is absent.  The code does the opposite on
the permission leg: with the channel present and permission PRESENT the
handler removes the job, flips `daily_challenge_on` off and raises, sending
nothing, while with permission ABSENT it proceeds to send the reminder. -/
theorem remind_channel_check_inverted :
    daily_challenge_remind remindEnvPermissionPresent =
      ⟨true, some ⟨10, 77, false, ⟨2024, 5, 1⟩⟩, none,
        some (.channelOrPermission 77 1)⟩
    ∧ daily_challenge_remind remindEnvPermissionAbsent =
      ⟨false, some ⟨10, 77, true, ⟨2024, 5, 1⟩⟩, some [100], none⟩ := by
  constructor <;> rfl

/-- Claim C2: the fetch-failure half of the claim holds (a failed challenge
fetch raises before any database access, mutating no guild), but after a
successful run no guild's stored `daily_challenge_date` equals the run's UTC
midnight: the handler only assigns a Python attribute that
models.GuildConfig does not map, so the persisted rows are unchanged and a
fresh session loading the row sees no date at all. -/
theorem start_of_day_date_not_persisted :
    (daily_challenge_start startEnvFetchFail).persisted = startEnvFetchFail.db
    ∧ daily_challenge_start startEnvOk =
      ⟨false, [cfgRowEnabled], [⟨cfgRowEnabled, some ⟨2024, 5, 1⟩⟩], [77]⟩
    ∧ (loadInstance cfgRowEnabled).daily_challenge_date = none := by
  refine ⟨rfl, ?_, rfl⟩
  rfl

/-- Claim C3: the duplicate check in submit() looks a stored row up by the
CALLER's member id together with the submission id, so when a different
member of the guild re-claims an already-stored submission id the check
finds nothing: the call succeeds and a second Submission row with the same
external submission id is written.  Only the original claimant's own repeat
call is rejected (naming the claimant, i.e. themselves). -/
theorem submit_duplicate_check_member_scoped :
    (leetcode_submit submitEnvB "5").outcome = .ok 5
    ∧ (leetcode_submit submitEnvB "5").submissions = [subRowA, ⟨5, 2, 7, d0⟩]
    ∧ ((leetcode_submit submitEnvB "5").submissions.filter
        (fun s => s.submission_id == 5)).length = 2
    ∧ (leetcode_submit submitEnvA "5").outcome = .error (.alreadySubmitted 5 1)
    ∧ (leetcode_submit submitEnvA "5").submissions = [subRowA] := by
  exact ⟨rfl, rfl, rfl, rfl, rfl⟩

/-- Claim C9: invoking leetcode_channel with its declared default
`channel_id = None` hits `channel_id.isdigit()` first, raising an unhandled
AttributeError before any configuration is read or written, so the
documented fallback to the current channel is unreachable from the
default. -/
theorem channel_none_raises_attribute_error (env : ChannelCmdEnv) :
    leetcode_channel none env = ⟨.attributeError, env.config, false⟩ := rfl

/-- Claim C5: when remind(guild_id) runs and the configured participant role
no longer exists in the guild, the handler removes the guild's reminder job,
persists `daily_challenge_on = false` (the commit makes `configAfter` the
stored row), raises the 404 error naming the role, and sends no reminder. -/
theorem remind_role_missing_disables (env : RemindEnv) (cfg : RemindConfig)
    (hc : env.config = some cfg) (hg : env.guildExists = true)
    (hr : env.roleExists = false) :
    daily_challenge_remind env =
      ⟨true, some { cfg with daily_challenge_on := false }, none,
        some (.roleMissing cfg.role_id env.guild_id)⟩ := by
  simp [daily_challenge_remind, hc, hg, hr]

/-- Witness for claim C5 at a concrete firing. -/
theorem remind_role_missing_disables_witness :
    remindEnvRoleGone.config = some ⟨10, 77, true, ⟨2024, 5, 1⟩⟩
    ∧ remindEnvRoleGone.guildExists = true
    ∧ remindEnvRoleGone.roleExists = false
    ∧ daily_challenge_remind remindEnvRoleGone =
      ⟨true, some ⟨10, 77, false, ⟨2024, 5, 1⟩⟩, none, some (.roleMissing 10 1)⟩ :=
  ⟨rfl, rfl, rfl,
    remind_role_missing_disables remindEnvRoleGone ⟨10, 77, true, ⟨2024, 5, 1⟩⟩
      rfl rfl rfl⟩

/-- Claim C8: the remind-time command accepts 23:59:59 and 00:00:00 (setting
and committing the formatted time and re-registering the job), and rejects
hour 24 and minute 60 with a 400 validation error raised before any
configuration change (config and job pass through untouched). -/
theorem remind_time_boundary :
    (∀ (cfg : RtConfig) (job : Option (Int × Int × Int)),
      leetcode_remind_time 23 59 59 (some cfg) job =
        ⟨.ok "23:59:59", some { cfg with remind_time := "23:59:59" },
          some (23, 59, 59)⟩)
    ∧ (∀ (cfg : RtConfig) (job : Option (Int × Int × Int)),
      leetcode_remind_time 0 0 0 (some cfg) job =
        ⟨.ok "00:00:00", some { cfg with remind_time := "00:00:00" },
          some (0, 0, 0)⟩)
    ∧ (∀ (config : Option RtConfig) (job : Option (Int × Int × Int))
        (minute second : Int),
      leetcode_remind_time 24 minute second config job =
        ⟨.error (400, "The hour must be between 0 and 23."), config, job⟩)
    ∧ (∀ (config : Option RtConfig) (job : Option (Int × Int × Int))
        (second : Int),
      leetcode_remind_time 23 60 second config job =
        ⟨.error (400, "The minute and second must be between 0 and 59."),
          config, job⟩) :=
  ⟨fun _ _ => rfl, fun _ _ => rfl, fun _ _ _ _ => rfl, fun _ _ _ => rfl⟩

/-- In every run of submit, either no external API request was issued or the
notification channel had resolved and the bot had send permission. -/
theorem submit_api_calls_need_channel_aux (env : SubmitEnv) (link_or_id : String) :
    (leetcode_submit env link_or_id).apiCalls = []
      ∨ (env.channelExists = true ∧ env.canSend = true) := by
  unfold leetcode_submit
  repeat' split
  all_goals simp_all

/-- A run of submit whose channel is missing or unsendable fails with no API
call and no database write. -/
theorem submit_blocked_by_channel_aux (env : SubmitEnv) (link_or_id : String)
    (h : env.channelExists = false ∨ env.canSend = false) :
    (∃ e, (leetcode_submit env link_or_id).outcome = .error e)
    ∧ (leetcode_submit env link_or_id).apiCalls = []
    ∧ (leetcode_submit env link_or_id).submissions = env.submissions := by
  unfold leetcode_submit
  repeat' split
  all_goals simp_all

/-- Claim C6: submit() resolves the guild's notification channel and confirms
the bot's send permission before issuing any external API request; if the
channel is missing or permission is absent, submit fails with no external
API call made and no Submission row written. -/
theorem submit_channel_checked_before_api (env : SubmitEnv) (link_or_id : String) :
    ((leetcode_submit env link_or_id).apiCalls ≠ [] →
      env.channelExists = true ∧ env.canSend = true)
    ∧ ((env.channelExists = false ∨ env.canSend = false) →
      (∃ e, (leetcode_submit env link_or_id).outcome = .error e)
      ∧ (leetcode_submit env link_or_id).apiCalls = []
      ∧ (leetcode_submit env link_or_id).submissions = env.submissions) := by
  constructor
  · intro hne
    rcases submit_api_calls_need_channel_aux env link_or_id with h | h
    · exact absurd h hne
    · exact h
  · exact submit_blocked_by_channel_aux env link_or_id

/-- Witness for claim C6 at a concrete invocation with a missing channel. -/
theorem submit_channel_checked_before_api_witness :
    (submitEnvNoChannel.channelExists = false ∨ submitEnvNoChannel.canSend = false)
    ∧ ((∃ e, (leetcode_submit submitEnvNoChannel "5").outcome = .error e)
      ∧ (leetcode_submit submitEnvNoChannel "5").apiCalls = []
      ∧ (leetcode_submit submitEnvNoChannel "5").submissions
          = submitEnvNoChannel.submissions) :=
  ⟨Or.inl rfl,
    (submit_channel_checked_before_api submitEnvNoChannel "5").2 (Or.inl rfl)⟩

/-- A run of submit whose fetched submission detail has a status code other
than 10 never succeeds and never writes a Submission row. -/
theorem submit_non_accepted_no_row_aux (env : SubmitEnv) (link_or_id : String)
    (d : SubDetail) (hd : env.detail = .ok (some d)) (hs : ¬d.statusCode = 10) :
    (∀ n, ¬(leetcode_submit env link_or_id).outcome = .ok n)
    ∧ (leetcode_submit env link_or_id).submissions = env.submissions := by
  unfold leetcode_submit
  repeat' split
  all_goals simp_all

/-- When every earlier check passes, a status code other than 10 is rejected
with the error naming the status display of that code. -/
theorem submit_badstatus_error_aux (env : SubmitEnv) (link_or_id : String)
    (sid : Nat) (cfg : SubmitConfig) (db_member : MemberRow) (q : DailyQ)
    (d : SubDetail)
    (h1 : extractSubmissionId link_or_id = some sid)
    (h2 : env.config = some cfg) (h3 : cfg.daily_challenge_on = true)
    (h4 : get_member_by_guild_user env.members env.guild_id env.user_id
      = some db_member)
    (h5 : env.channelExists = true) (h6 : env.canSend = true)
    (h7 : env.daily = .ok (some q)) (h8 : env.detail = .ok (some d))
    (h9 : d.questionFrontendId = q.questionFrontendId)
    (h10 : d.timestampDate = q.date) (hs : ¬d.statusCode = 10) :
    (leetcode_submit env link_or_id).outcome =
      .error (.badStatus sid (get_status_display d.statusCode)) := by
  simp [leetcode_submit, h1, h2, h3, h4, h5, h6, h7, h8, h9, h10, hs]

/-- Claim C7: submit() rejects every claimed submission whose status code is
not exactly the accepted code 10 — it never succeeds and writes no
Submission row — and, whenever the earlier checks pass so that the status
check is the one that fires, the rejection names that submission's status
display. -/
theorem submit_rejects_non_accepted (env : SubmitEnv) (link_or_id : String)
    (d : SubDetail) (hd : env.detail = .ok (some d)) (hs : d.statusCode ≠ 10) :
    (∀ n, (leetcode_submit env link_or_id).outcome ≠ .ok n)
    ∧ (leetcode_submit env link_or_id).submissions = env.submissions
    ∧ (∀ (sid : Nat) (cfg : SubmitConfig) (db_member : MemberRow) (q : DailyQ),
        extractSubmissionId link_or_id = some sid →
        env.config = some cfg → cfg.daily_challenge_on = true →
        get_member_by_guild_user env.members env.guild_id env.user_id
          = some db_member →
        env.channelExists = true → env.canSend = true →
        env.daily = .ok (some q) →
        d.questionFrontendId = q.questionFrontendId →
        d.timestampDate = q.date →
        (leetcode_submit env link_or_id).outcome =
          .error (.badStatus sid (get_status_display d.statusCode))) := by
  refine ⟨(submit_non_accepted_no_row_aux env link_or_id d hd hs).1,
    (submit_non_accepted_no_row_aux env link_or_id d hd hs).2, ?_⟩
  intro sid cfg db_member q h1 h2 h3 h4 h5 h6 h7 h9 h10
  exact submit_badstatus_error_aux env link_or_id sid cfg db_member q d
    h1 h2 h3 h4 h5 h6 h7 hd h9 h10 hs

/-- Witness for claim C7 at a concrete Wrong Answer invocation. -/
theorem submit_rejects_non_accepted_witness :
    (leetcode_submit submitEnvWrongStatus "5").outcome
      = .error (.badStatus 5 "Wrong Answer")
    ∧ (leetcode_submit submitEnvWrongStatus "5").submissions
      = submitEnvWrongStatus.submissions := by
  have h := submit_rejects_non_accepted submitEnvWrongStatus "5"
    detailWrongAnswer rfl (by decide)
  exact ⟨h.2.2 5 ⟨true, 77, "UTC"⟩ memberA ⟨d0, 7⟩ rfl rfl rfl rfl rfl rfl rfl
    rfl rfl, h.2.1⟩

/-- Membership in the completed-user-ids query result: some submission of a
member of the guild was created on the day. -/
theorem mem_get_completed_user_ids (members : List MemberRow)
    (submissions : List SubmissionRow) (guild_id : Nat) (day now : Date) (u : Nat) :
    u ∈ get_completed_user_ids members submissions guild_id (some day) now ↔
      ∃ s ∈ submissions, ∃ m ∈ members, s.member_id = m.id
        ∧ m.guild_id = guild_id ∧ createdOn s day = true ∧ m.user_id = u := by
  simp [get_completed_user_ids]
  tauto

/-- Membership in the uncompleted-user-ids query result: a member of the
guild none of whose submissions was created on the day. -/
theorem mem_get_uncompleted_user_ids (members : List MemberRow)
    (submissions : List SubmissionRow) (guild_id : Nat) (day now : Date) (u : Nat) :
    u ∈ get_uncompleted_user_ids members submissions guild_id (some day) now ↔
      ∃ m ∈ members, m.guild_id = guild_id
        ∧ (∀ s ∈ submissions, createdOn s day = true → s.member_id ≠ m.id)
        ∧ m.user_id = u := by
  simp [get_uncompleted_user_ids, List.isEmpty_iff, List.filter_eq_nil_iff]
  constructor
  · rintro ⟨m, ⟨hm, hg, hall⟩, hu⟩
    exact ⟨m, hm, hg, fun s hs hc => fun hid => by simpa [hc] using hall s hs hid, hu⟩
  · rintro ⟨m, hm, hg, hall, hu⟩
    refine ⟨m, ⟨hm, hg, fun s hs hid => ?_⟩, hu⟩
    cases hco : createdOn s day
    · rfl
    · exact absurd hid (hall s hs hco)

/-- Claim C4: for every guild and every day, the completed-user-ids query and
the uncompleted-user-ids query return disjoint sets of user ids whose union
is exactly the user ids of the guild's members.  The disjointness direction
uses the Member invariant (one row per (guild, user): two member rows of one
guild with one user id are the same row). -/
theorem completed_uncompleted_partition (members : List MemberRow)
    (submissions : List SubmissionRow) (guild_id : Nat) (day now : Date)
    (huniq : ∀ m1 ∈ members, ∀ m2 ∈ members,
      m1.guild_id = m2.guild_id → m1.user_id = m2.user_id → m1.id = m2.id) :
    (∀ u, ¬(u ∈ get_completed_user_ids members submissions guild_id (some day) now
        ∧ u ∈ get_uncompleted_user_ids members submissions guild_id (some day) now))
    ∧ (∀ u, (u ∈ get_completed_user_ids members submissions guild_id (some day) now
        ∨ u ∈ get_uncompleted_user_ids members submissions guild_id (some day) now)
        ↔ u ∈ (get_guild_members members guild_id).map MemberRow.user_id) := by
  constructor
  · rintro u ⟨hc, hun⟩
    rw [mem_get_completed_user_ids] at hc
    rw [mem_get_uncompleted_user_ids] at hun
    obtain ⟨s, hs, m1, hm1, hsid, hg1, hco, hu1⟩ := hc
    obtain ⟨m2, hm2, hg2, hall, hu2⟩ := hun
    have hid : m1.id = m2.id :=
      huniq m1 hm1 m2 hm2 (hg1.trans hg2.symm) (hu1.trans hu2.symm)
    exact hall s hs hco (hsid.trans hid)
  · intro u
    rw [mem_get_completed_user_ids, mem_get_uncompleted_user_ids]
    simp only [get_guild_members, List.mem_map, List.mem_filter, beq_iff_eq]
    constructor
    · rintro (⟨s, hs, m, hm, hsid, hg, hco, hu⟩ | ⟨m, hm, hg, hall, hu⟩)
      · exact ⟨m, ⟨hm, hg⟩, hu⟩
      · exact ⟨m, ⟨hm, hg⟩, hu⟩
    · rintro ⟨m, ⟨hm, hg⟩, hu⟩
      by_cases h : ∃ s ∈ submissions, createdOn s day = true ∧ s.member_id = m.id
      · obtain ⟨s, hs, hco, hsid⟩ := h
        exact Or.inl ⟨s, hs, m, hm, hsid.symm ▸ rfl, hg, hco, hu⟩
      · push_neg at h
        exact Or.inr ⟨m, hm, hg, fun s hs hco hsid => h s hs hco hsid, hu⟩

/-- Witness for claim C4 at a concrete guild: user 100 completed, so it is
not in both query results. -/
theorem completed_uncompleted_partition_witness :
    ¬(100 ∈ get_completed_user_ids partitionMembers partitionSubs 1
        (some ⟨2024, 5, 1⟩) ⟨2024, 5, 1⟩
      ∧ 100 ∈ get_uncompleted_user_ids partitionMembers partitionSubs 1
        (some ⟨2024, 5, 1⟩) ⟨2024, 5, 1⟩) :=
  (completed_uncompleted_partition partitionMembers partitionSubs 1
    ⟨2024, 5, 1⟩ ⟨2024, 5, 1⟩ (by decide)).1 100

/-- Claim C10: for every input string and both render types,
_generate_embed_text_value returns at most 1024 characters; when the input
is too long it truncates with an ellipsis, and in markdown mode the
truncated value keeps the closing code fence. -/
theorem generate_embed_text_value_bounded (text : List Char) :
    (generate_embed_text_value text "plain_text".data).length ≤ 1024
    ∧ (generate_embed_text_value text "markdown".data).length ≤ 1024
    ∧ (text.length > 1024 →
        generate_embed_text_value text "plain_text".data
          = text.take 1021 ++ "...".data)
    ∧ (text.length + 6 > 1024 →
        generate_embed_text_value text "markdown".data
          = "```".data ++ text.take 1015 ++ "...```".data) := by
  refine ⟨?_, ?_, ?_, ?_⟩
  · simp [generate_embed_text_value]
    split
    · simp [List.length_take]
    · omega
  · simp [generate_embed_text_value]
    split
    · simp [List.length_take]
    · simp
      omega
  · intro h
    simp [generate_embed_text_value, h]
  · intro h
    simp [generate_embed_text_value, h]

/-- The length of the concrete overlong input. -/
theorem longText_length : longText.length = 1030 := by
  rw [longText, List.length_replicate]

/-- Witness for claim C10 at a 1030-character input. -/
theorem generate_embed_text_value_bounded_witness :
    (longText.length > 1024
      ∧ generate_embed_text_value longText "plain_text".data
          = longText.take 1021 ++ "...".data)
    ∧ (longText.length + 6 > 1024
      ∧ generate_embed_text_value longText "markdown".data
          = "```".data ++ longText.take 1015 ++ "...```".data) :=
  ⟨⟨by rw [longText_length]; norm_num,
    (generate_embed_text_value_bounded longText).2.2.1
      (by rw [longText_length]; norm_num)⟩,
    ⟨by rw [longText_length]; norm_num,
    (generate_embed_text_value_bounded longText).2.2.2
      (by rw [longText_length]; norm_num)⟩⟩
